import Mathlib

/-!
Shallow embedding of the trezor-core wire protocol session layer
(`src/trezor/wire/__init__.py`) and the PIN-change workflow
(`src/apps/management/change_pin.py`).

Exceptions raised by Python code are embedded as values of `Exc` threaded
through `Except`; the cooperative suspension of `await` on an interface with
no pending input is embedded as `Option` (`none` = suspended).  Raw wire
output and user-interface side effects are embedded as explicit event traces.
-/

/-- A framed wire message as delivered by the codec: the type tag parsed from
the header together with the declared payload bytes. -/
structure Frame where
  type : Nat
  payload : List Nat
  deriving DecidableEq, Repr

/-- Modelled from the spec: the `codec_v1.Reader` streaming reader (its module
is outside the given sources).  It is bound to one frame, exposes the type tag
parsed from the header and the remaining undelivered payload bytes. -/
structure Reader where
  type : Nat
  data : List Nat
  deriving DecidableEq, Repr

/-- Remaining byte count of the reader (`reader.size`). -/
def Reader.size (r : Reader) : Nat := r.data.length

/-- The reader obtained by opening the header of frame `f`
(`ctx.getreader()` followed by `await reader.aopen()`). -/
def Reader.ofFrame (f : Frame) : Reader := ⟨f.type, f.payload⟩

/-- Modelled from the spec: `reader.areadinto(buf)` for a caller buffer of
length `n` delivers the next `min n size` payload bytes into the buffer and
advances the reader past them. -/
def Reader.areadinto (r : Reader) (n : Nat) : List Nat × Reader :=
  (r.data.take n, ⟨r.type, r.data.drop n⟩)

/-- A protobuf message written to the wire by the session layer: either a
`Failure{code, message}` reply, a `Success{message}` reply, or some other
response message identified by its wire type tag. -/
inductive Msg where
  | failure (code : Nat) (message : String)
  | success (message : String)
  | resp (tag : Nat)
  deriving DecidableEq, Repr

/-- Modelled from the spec: the `FailureType.UnexpectedMessage` code used by
the generic unexpected-message workflow (`trezor.messages` is outside the
given sources). -/
def FailureType.UnexpectedMessage : Nat := 1

/-- Modelled from the spec: the `FailureType.ActionCancelled` code carried by
the `ActionCancelled` domain failure. -/
def FailureType.ActionCancelled : Nat := 4

/-- Modelled from the spec: the `FailureType.PinInvalid` code carried by the
`PinInvalid` domain failure. -/
def FailureType.PinInvalid : Nat := 13

/-- Modelled from the spec: the generic `FailureType.FirmwareError` code used
by `protobuf_workflow` for faults that are not domain failures. -/
def FailureType.FirmwareError : Nat := 99

/-- Exceptions that can propagate out of a workflow, mirroring the `except`
ladder of `session_handler`: `unexpectedMessage` embeds
`UnexpectedMessageError` carrying the already-opened reader; `wireError`
embeds `trezor.wire.errors.Error` (a domain failure with code and message);
`other` embeds every other `Exception`, identified by an abstract tag. -/
inductive Exc where
  | unexpectedMessage (reader : Reader)
  | wireError (code : Nat) (message : String)
  | other (tag : Nat)
  deriving DecidableEq, Repr

/-- `Context.read(types)`: awaiting the header of the next frame on the
interface (suspending, `none`, when no frame is pending), then raising
`UnexpectedMessageError` with the opened reader when the frame's type tag is
not a member of `types`, and otherwise decoding via the looked-up protobuf
type.  `get_type` embeds `messages.get_type` and `load_message` embeds
`protobuf.load_message`, both outside the given sources. -/
def Context.read {α : Type} (get_type : Nat → Nat) (load_message : Nat → Reader → α)
    (types : List Nat) (iface : List Frame) : Option (Except Exc (α × List Frame)) :=
  match iface with
  | [] => none
  | f :: rest =>
    let reader := Reader.ofFrame f
    if reader.type ∉ types then
      some (.error (.unexpectedMessage reader))
    else
      some (.ok (load_message (get_type reader.type) reader, rest))

/-- The `mtype` argument of `register`: either a plain integer type tag or a
`protobuf.MessageType` subclass, represented by its `MESSAGE_WIRE_TYPE`. -/
inductive MType where
  | tag (n : Nat)
  | cls (wireType : Nat)
  deriving DecidableEq, Repr

/-- The conversion performed at the top of `register`: a `MessageType` class
is replaced by its `MESSAGE_WIRE_TYPE` integer; an integer is kept. -/
def MType.resolve : MType → Nat
  | .tag n => n
  | .cls w => w

/-- Dictionary lookup `workflow_handlers[key]`, embedded over an association
list. -/
def lookup {α : Type} : List (Nat × α) → Nat → Option α
  | [], _ => none
  | (k, v) :: rest, key => if k = key then some v else lookup rest key

/-- The fatal configuration error raised by `register` on a duplicate tag
(`raise KeyError`). -/
inductive RegErr where
  | keyError
  deriving DecidableEq, Repr

/-- `register(mtype, handler, *args)`: resolves a `MessageType` class to its
wire-type integer, raises `KeyError` when the tag is already present in
`workflow_handlers`, and otherwise inserts the entry under the tag.  The
entry type `α` stands for the stored pair `(handler, args)`. -/
def register {α : Type} (table : List (Nat × α)) (mtype : MType) (entry : α) :
    Except RegErr (List (Nat × α)) :=
  let t := mtype.resolve
  if (lookup table t).isSome then
    .error RegErr.keyError
  else
    .ok (table ++ [(t, entry)])

/-- `protobuf_workflow(ctx, reader, handler, *args)`: loads the typed request
from the reader, invokes the inner handler, and translates its outcome — an
`UnexpectedMessageError` is re-raised untouched with nothing written; a wire
`Error` is answered with `Failure(code, message)` and re-raised; any other
exception is answered with `Failure(FirmwareError, "Firmware error")` and
re-raised; a truthy result is written as the response and a falsy result
writes nothing.  The first component of the result is the list of messages
written to the context, in order. -/
def protobuf_workflow {α : Type} (get_type : Nat → Nat) (load_message : Nat → Reader → α)
    (handler : α → Except Exc (Option Msg)) (r : Reader) : List Msg × Except Exc Unit :=
  match handler (load_message (get_type r.type) r) with
  | .error (.unexpectedMessage rd) => ([], .error (.unexpectedMessage rd))
  | .error (.wireError c m) => ([Msg.failure c m], .error (.wireError c m))
  | .error (.other n) =>
      ([Msg.failure FailureType.FirmwareError "Firmware error"], .error (.other n))
  | .ok (some res) => ([res], .ok ())
  | .ok none => ([], .ok ())

/-- Acquisition and release events on the secure credential handle
("keychain"), identified by an abstract handle id. -/
inductive KEv where
  | acquire (keychain : Nat)
  | release (keychain : Nat)
  deriving DecidableEq, Repr

/-- `keychain_workflow(ctx, req, namespace, handler, *args)`: awaits
`seed.get_keychain` (outside the given sources, embedded as an `Except`
input), appends the acquired keychain to the handler's arguments, and runs
the inner handler inside `try/finally` so that `keychain.__del__()` runs on
every exit path.  The first component is the trace of keychain events. -/
def keychain_workflow {α : Type} (get_keychain : Except Exc Nat)
    (handler : Nat → Except Exc α) : List KEv × Except Exc α :=
  match get_keychain with
  | .error e => ([], .error e)
  | .ok k => ([KEv.acquire k, KEv.release k], handler k)

/-- The drain loop of `unexpected_msg`: `while reader.size > 0`, allocate a
buffer of `reader.size` bytes and `areadinto` it.  Returns the bytes read off
the interface and the exhausted reader. -/
def drainReader (r : Reader) : List Nat × Reader :=
  if _h : 0 < r.size then
    let step := r.areadinto r.size
    let rest := drainReader step.2
    (step.1 ++ rest.1, rest.2)
  else
    ([], r)
termination_by r.size
decreasing_by
  simp only [Reader.areadinto, Reader.size, List.length_drop] at *
  omega

/-- `unexpected_msg(ctx, reader)`: drains the full remaining declared payload
off the reader, throwing the bytes away, then writes
`Failure(UnexpectedMessage, "Unexpected message")`.  Returns the drained
bytes, the exhausted reader and the messages written. -/
def unexpected_msg (r : Reader) : List Nat × Reader × List Msg :=
  let d := drainReader r
  (d.1, d.2, [Msg.failure FailureType.UnexpectedMessage "Unexpected message"])

/-- A workflow's observable behaviour when run by the session handler on a
reader: the messages it writes to the context and its outcome (normal return
or a raised exception). -/
def Behavior : Type := Reader → List Msg × Except Exc Unit

/-- The behaviour of the generic `unexpected_msg` workflow. -/
def unexpected_msg_behavior : Behavior :=
  fun r => ((unexpected_msg r).2.2, Except.ok ())

/-- The observable result of one iteration of the `session_handler` loop:
the type tag dispatched on, the messages the workflow wrote, the reader
carried over into the next iteration (`reader` at the bottom of the loop),
and the frames still pending on the interface. -/
structure IterOut where
  dispatched : Nat
  writes : List Msg
  nextReader : Option Reader
  rest : List Frame
  deriving DecidableEq, Repr

/-- The `except` ladder of `session_handler` applied to a workflow outcome:
`UnexpectedMessageError` is caught and its reader retried;
a wire `Error` is caught and logged as a warning; any other `Exception` is
caught and logged; in the latter two cases and on normal completion the
reader is discarded (`reader = None`).  An uncaught exception would appear as
`.error` and terminate the loop. -/
def handle_workflow_exc : Except Exc Unit → Except Exc (Option Reader)
  | .ok () => .ok none
  | .error (.unexpectedMessage r) => .ok (some r)
  | .error (.wireError _ _) => .ok none
  | .error (.other _) => .ok none

/-- The handler selection of `session_handler`: `workflow_handlers[reader.type]`
with the `except KeyError` fallback to `unexpected_msg`. -/
def selectHandler (handlers : List (Nat × Behavior)) (t : Nat) : Behavior :=
  match lookup handlers t with
  | some b => b
  | none => unexpected_msg_behavior

/-- The dispatch-and-run part of one `session_handler` iteration, given an
already-opened reader: look the type tag up in `workflow_handlers`, fall back
to `unexpected_msg` on a miss, run the workflow and feed its outcome through
the `except` ladder. -/
def sessionDispatch (handlers : List (Nat × Behavior)) (r : Reader)
    (rest : List Frame) : Except Exc (Option IterOut) :=
  match handle_workflow_exc (selectHandler handlers r.type r).2 with
  | .ok next => .ok (some ⟨r.type, (selectHandler handlers r.type r).1, next, rest⟩)
  | .error e => .error e

/-- One iteration of the `session_handler` loop: when no carried-over reader
exists, open a fresh reader on the next frame header (suspending, `.ok none`,
when the interface has no pending frame); otherwise reuse the carried-over
reader without touching the interface; then dispatch.  An `.error` result
would mean an exception escaped the iteration and ended the loop. -/
def sessionIter (handlers : List (Nat × Behavior)) (carried : Option Reader)
    (iface : List Frame) : Except Exc (Option IterOut) :=
  match carried, iface with
  | none, [] => .ok none
  | none, f :: rest => sessionDispatch handlers (Reader.ofFrame f) rest
  | some r, _ => sessionDispatch handlers r iface

/-- User-visible and storage side effects of the `change_pin` workflow:
a confirmation dialog identified by its bold text line, a PIN entry prompt
(`none` for the unlabelled current-PIN prompt of `request_pin_ack(ctx)`),
the PIN-mismatch retry screen, and a call to `config.change_pin(cur, new)`. -/
inductive Ev where
  | confirmDialog (bold : String)
  | promptPin (label : Option String)
  | pinMismatch
  | storeChangePin (cur new : Nat)
  deriving DecidableEq, Repr

/-- Modelled from the spec: `apps.common.confirm.require_confirm` (outside the
given sources) waits for the user's decision and raises the `ActionCancelled`
domain failure when the user rejects. -/
def confirmResult (confirm_ok : Bool) : Except Exc Unit :=
  if confirm_ok then .ok () else .error (.wireError FailureType.ActionCancelled "Cancelled")

/-- `require_confirm_change_pin(ctx, msg)`: shows one of three confirmation
dialogs depending on `msg.remove` and `config.has_pin()`; in the remaining
case (`msg.remove` with no stored PIN) it shows nothing and returns. -/
def require_confirm_change_pin (has_pin remove confirm_ok : Bool) :
    List Ev × Except Exc Unit :=
  if remove && has_pin then
    ([Ev.confirmDialog "remove current PIN?"], confirmResult confirm_ok)
  else if !remove && has_pin then
    ([Ev.confirmDialog "change current PIN?"], confirmResult confirm_ok)
  else if !remove && !has_pin then
    ([Ev.confirmDialog "set new PIN?"], confirmResult confirm_ok)
  else
    ([], .ok ())

/-- `request_pin_confirm(ctx)`: repeatedly prompt for a new PIN twice; return
the PIN when the two entries match, otherwise show the mismatch screen and
retry.  `entries` is the stream of successful user entries; an exhausted
stream leaves the loop suspended waiting for the user (`none`). -/
def request_pin_confirm : List (String × String) → List Ev × Option String
  | [] => ([], none)
  | (pin1, pin2) :: rest =>
    let evs := [Ev.promptPin (some "Enter new PIN"), Ev.promptPin (some "Re-enter new PIN")]
    if pin1 = pin2 then
      (evs, some pin1)
    else
      let cont := request_pin_confirm rest
      (evs ++ Ev.pinMismatch :: cont.1, cont.2)

/-- `change_pin(ctx, msg)`: confirm the action, check the current PIN when one
is stored (`config.has_pin`, `config.check_pin` modelled from the spec as
inputs), obtain the new PIN via `request_pin_confirm` unless `msg.remove`,
write the credential store via `config.change_pin` (modelled from the spec as
an input predicate; the call is recorded as a `storeChangePin` event), and
reply `Success("PIN changed")` for a non-empty new PIN, `Success("PIN
removed")` otherwise; a failed store write raises `PinInvalid`.  The result
is the event trace together with the outcome, `none` when suspended waiting
for more PIN entries. -/
def change_pin (has_pin : Bool) (check_pin : Nat → Bool)
    (config_change_pin : Nat → Nat → Bool) (pin_to_int : String → Nat)
    (remove confirm_ok : Bool) (curEntry : String)
    (entries : List (String × String)) : List Ev × Option (Except Exc Msg) :=
  match require_confirm_change_pin has_pin remove confirm_ok with
  | (evs0, .error e) => (evs0, some (.error e))
  | (evs0, .ok ()) =>
    let cur : List Ev × Except Exc String :=
      if has_pin then
        ([Ev.promptPin none],
         if check_pin (pin_to_int curEntry) then .ok curEntry
         else .error (.wireError FailureType.PinInvalid "PIN invalid"))
      else
        ([], .ok "")
    match cur with
    | (evs1, .error e) => (evs0 ++ evs1, some (.error e))
    | (evs1, .ok curpin) =>
      let neu : List Ev × Option String :=
        if !remove then request_pin_confirm entries else ([], some "")
      match neu with
      | (evs2, none) => (evs0 ++ evs1 ++ evs2, none)
      | (evs2, some newpin) =>
        let wev := Ev.storeChangePin (pin_to_int curpin) (pin_to_int newpin)
        if config_change_pin (pin_to_int curpin) (pin_to_int newpin) then
          (evs0 ++ evs1 ++ evs2 ++ [wev],
           some (.ok (if newpin ≠ "" then Msg.success "PIN changed"
                      else Msg.success "PIN removed")))
        else
          (evs0 ++ evs1 ++ evs2 ++ [wev],
           some (.error (.wireError FailureType.PinInvalid "PIN invalid")))

/-! Helper lemmas shared by the claim theorems. -/

/-- Every value of the exception ladder is caught: `handle_workflow_exc`
never propagates. -/
theorem handle_workflow_exc_isOk (e : Except Exc Unit) :
    ∃ nr, handle_workflow_exc e = .ok nr := by
  cases e with
  | ok u =>
    cases u
    exact ⟨none, rfl⟩
  | error ex =>
    cases ex with
    | unexpectedMessage r => exact ⟨some r, rfl⟩
    | wireError c m => exact ⟨none, rfl⟩
    | other n => exact ⟨none, rfl⟩

/-- Dispatching on an opened reader always completes the iteration normally,
dispatching on the reader's type tag and leaving the pending frames as
given. -/
theorem sessionDispatch_shape (handlers : List (Nat × Behavior)) (r : Reader)
    (rest : List Frame) :
    ∃ ws next, sessionDispatch handlers r rest =
      .ok (some ⟨r.type, ws, next, rest⟩) := by
  obtain ⟨nr, hnr⟩ := handle_workflow_exc_isOk (selectHandler handlers r.type r).2
  refine ⟨(selectHandler handlers r.type r).1, nr, ?_⟩
  unfold sessionDispatch
  rw [hnr]

/-- The drain loop reads exactly the remaining payload and exhausts the
reader. -/
theorem drainReader_eq (r : Reader) : drainReader r = (r.data, ⟨r.type, []⟩) := by
  rcases r with ⟨t, data⟩
  rcases data with _ | ⟨b, bs⟩
  · rw [drainReader]
    simp [Reader.size]
  · rw [drainReader]
    simp only [Reader.size, Reader.areadinto]
    rw [drainReader]
    simp [Reader.size]

/-- Appending a fresh binding does not change lookups of other keys, and a
lookup of the fresh key succeeds when it was absent. -/
theorem lookup_append {α : Type} (table : List (Nat × α)) (k : Nat) (v : α)
    (key : Nat) :
    lookup (table ++ [(k, v)]) key =
      match lookup table key with
      | some w => some w
      | none => if k = key then some v else none := by
  induction table with
  | nil => simp [lookup]
  | cons hd tl ih =>
    rcases hd with ⟨k0, v0⟩
    by_cases h : k0 = key
    · simp [lookup, h]
    · simp [lookup, h, ih]

/-- The PIN-confirmation loop never touches the credential store: its trace
consists only of prompts and mismatch screens. -/
theorem request_pin_confirm_no_store (entries : List (String × String)) :
    ∀ e ∈ (request_pin_confirm entries).1, ∀ a b, e ≠ Ev.storeChangePin a b := by
  induction entries with
  | nil => simp [request_pin_confirm]
  | cons hd tl ih =>
    rcases hd with ⟨p1, p2⟩
    by_cases h : p1 = p2
    · simp [request_pin_confirm, h]
    · intro e he a b
      simp only [request_pin_confirm, if_neg h] at he
      rcases List.mem_append.1 he with h1 | h2
      · fin_cases h1 <;> simp
      · rcases List.mem_cons.1 h2 with h3 | h4
        · subst h3
          simp
        · exact ih e h4 a b

/-- An iteration that starts with a carried-over reader never touches the
interface before dispatch. -/
theorem sessionIter_some (handlers : List (Nat × Behavior)) (r : Reader)
    (iface : List Frame) :
    sessionIter handlers (some r) iface = sessionDispatch handlers r iface := by
  cases iface <;> rfl

/-- An iteration with no carried-over reader opens the next frame header and
dispatches on it. -/
theorem sessionIter_cons (handlers : List (Nat × Behavior)) (f : Frame)
    (rest : List Frame) :
    sessionIter handlers none (f :: rest) =
      sessionDispatch handlers (Reader.ofFrame f) rest := rfl

/-- C1: The session handler loop is never terminated by a workflow-level
failure.  Every iteration — whatever the carried reader, the pending frames
and the registered workflow behaviours, hence whatever fault the dispatched
workflow raises — completes without an exception escaping (`sessionIter`
never returns `.error`), because the handler's `except` ladder catches the
unexpected-message condition (keeping its reader), a domain failure (wire
`Error`) and any other exception, discarding the reader in the latter two
cases so that the next iteration opens a fresh frame header; the loop has no
exit path triggered by a handler fault. -/
theorem session_loop_never_exits (handlers : List (Nat × Behavior))
    (carried : Option Reader) (iface : List Frame) :
    (∃ o, sessionIter handlers carried iface = .ok o) ∧
    (∀ r, handle_workflow_exc (.error (.unexpectedMessage r)) = .ok (some r)) ∧
    (∀ c m, handle_workflow_exc (.error (.wireError c m)) = .ok none) ∧
    (∀ n, handle_workflow_exc (.error (.other n)) = .ok none) := by
  refine ⟨?_, fun r => rfl, fun c m => rfl, fun n => rfl⟩
  cases carried with
  | some r =>
    obtain ⟨ws, next, hs⟩ := sessionDispatch_shape handlers r iface
    exact ⟨some ⟨r.type, ws, next, iface⟩, (sessionIter_some handlers r iface).trans hs⟩
  | none =>
    cases iface with
    | nil => exact ⟨none, rfl⟩
    | cons f rest =>
      obtain ⟨ws, next, hs⟩ := sessionDispatch_shape handlers (Reader.ofFrame f) rest
      exact ⟨some ⟨(Reader.ofFrame f).type, ws, next, rest⟩,
        (sessionIter_cons handlers f rest).trans hs⟩

/-- C2: When a running workflow raises the unexpected-message condition, the
session handler captures the already-opened reader carried in the condition
as the carried-over reader, and the next iteration re-enters dispatch on that
reader's type tag without opening a fresh frame header on the interface
(whatever frames are pending remain untouched).  Moreover a `Context.read`
with the empty expected-type set — the read raced inside `wait` — raises the
unexpected-message condition with the opened reader for every arriving
frame. -/
theorem unexpected_message_redispatch (handlers : List (Nat × Behavior))
    (b : Behavior) (f : Frame) (rest : List Frame) (ws : List Msg) (r' : Reader)
    (hb : lookup handlers f.type = some b)
    (hrun : b (Reader.ofFrame f) = (ws, .error (.unexpectedMessage r'))) :
    sessionIter handlers none (f :: rest) = .ok (some ⟨f.type, ws, some r', rest⟩) ∧
    (∀ iface2, ∃ o2, sessionIter handlers (some r') iface2 = .ok (some o2) ∧
      o2.dispatched = r'.type ∧ o2.rest = iface2) ∧
    (∀ (gt : Nat → Nat) (ld : Nat → Reader → Nat) (f2 : Frame) (rest2 : List Frame),
      Context.read gt ld [] (f2 :: rest2) =
        some (.error (.unexpectedMessage (Reader.ofFrame f2)))) := by
  have hsel : selectHandler handlers (Reader.ofFrame f).type = b := by
    simp [selectHandler, Reader.ofFrame, hb]
  refine ⟨?_, ?_, ?_⟩
  · rw [sessionIter_cons]
    unfold sessionDispatch
    rw [hsel, hrun]
    rfl
  · intro iface2
    obtain ⟨ws2, next2, hs⟩ := sessionDispatch_shape handlers r' iface2
    exact ⟨⟨r'.type, ws2, next2, iface2⟩,
      (sessionIter_some handlers r' iface2).trans hs, rfl, rfl⟩
  · intro gt ld f2 rest2
    simp [Context.read]

/-- C3: `Context.read(types)` on an arriving frame fails with the
unexpected-message condition carrying the already-opened reader — decoding
nothing — when the frame's type tag is not a member of `types`, and otherwise
looks up the message shape for the tag and decodes the typed message from the
reader. -/
theorem context_read_expected_types {α : Type} (gt : Nat → Nat)
    (ld : Nat → Reader → α) (types : List Nat) (f : Frame) (rest : List Frame) :
    (f.type ∉ types →
      Context.read gt ld types (f :: rest) =
        some (.error (.unexpectedMessage (Reader.ofFrame f)))) ∧
    (f.type ∈ types →
      Context.read gt ld types (f :: rest) =
        some (.ok (ld (gt f.type) (Reader.ofFrame f), rest))) := by
  constructor
  · intro h
    simp [Context.read, Reader.ofFrame, h]
  · intro h
    simp [Context.read, Reader.ofFrame, h]

/-- Witness for C3: with expected set `{3}`, a frame of type 9 raises the
unexpected-message condition carrying its reader, and a frame of type 3 is
decoded and returned. -/
theorem context_read_expected_types_witness :
    Context.read (fun t => t) (fun _ r => r.type) [3] [⟨9, []⟩] =
      some (.error (.unexpectedMessage (Reader.ofFrame ⟨9, []⟩))) ∧
    Context.read (fun t => t) (fun _ r => r.type) [3] [⟨3, []⟩] =
      some (.ok (3, [])) := by
  constructor
  · exact (context_read_expected_types (fun t => t) (fun _ r => r.type)
      [3] ⟨9, []⟩ []).1 (by decide)
  · exact (context_read_expected_types (fun t => t) (fun _ r => r.type)
      [3] ⟨3, []⟩ []).2 (by decide)

/-- A stub workflow used to witness the retry path: it raises the
unexpected-message condition carrying the already-opened reader of a frame of
type 7. -/
def retryStub : Behavior :=
  fun _ => ([Msg.resp 2], .error (.unexpectedMessage ⟨7, [1]⟩))

/-- Witness for C2 at a concrete session: the workflow registered for tag 5
raises the unexpected-message condition carrying a type-7 reader; the session
handler carries that reader over and the next iteration dispatches on tag 7
while leaving every pending frame on the interface untouched. -/
theorem unexpected_message_redispatch_witness :
    sessionIter [(5, retryStub)] none [⟨5, [0]⟩] =
      .ok (some ⟨5, [Msg.resp 2], some ⟨7, [1]⟩, []⟩) ∧
    (∀ iface2, ∃ o2, sessionIter [(5, retryStub)] (some ⟨7, [1]⟩) iface2 =
        .ok (some o2) ∧
      o2.dispatched = (⟨7, [1]⟩ : Reader).type ∧ o2.rest = iface2) ∧
    (∀ (gt : Nat → Nat) (ld : Nat → Reader → Nat) (f2 : Frame) (rest2 : List Frame),
      Context.read gt ld [] (f2 :: rest2) =
        some (.error (.unexpectedMessage (Reader.ofFrame f2)))) :=
  unexpected_message_redispatch [(5, retryStub)] retryStub ⟨5, [0]⟩ []
    [Msg.resp 2] ⟨7, [1]⟩ rfl rfl

/-- C4: `protobuf_workflow` translates the inner handler's faults before
re-raising them: a domain failure with code `C` and message `M` is answered
with a `Failure(C, M)` reply and re-raised unchanged; any other exception —
except the unexpected-message condition — is answered with
`Failure(FirmwareError, "Firmware error")` and re-raised; the
unexpected-message condition is re-raised untouched with no `Failure`
written. -/
theorem protobuf_workflow_error_translation {α : Type} (gt : Nat → Nat)
    (ld : Nat → Reader → α) (handler : α → Except Exc (Option Msg)) (r : Reader) :
    (∀ c m, handler (ld (gt r.type) r) = .error (.wireError c m) →
      protobuf_workflow gt ld handler r =
        ([Msg.failure c m], .error (.wireError c m))) ∧
    (∀ n, handler (ld (gt r.type) r) = .error (.other n) →
      protobuf_workflow gt ld handler r =
        ([Msg.failure FailureType.FirmwareError "Firmware error"],
         .error (.other n))) ∧
    (∀ rd, handler (ld (gt r.type) r) = .error (.unexpectedMessage rd) →
      protobuf_workflow gt ld handler r = ([], .error (.unexpectedMessage rd))) := by
  refine ⟨fun c m h => ?_, fun n h => ?_, fun rd h => ?_⟩ <;>
    · unfold protobuf_workflow
      rw [h]

/-- Witness for C4 at concrete handlers: a domain failure is answered with
its own code and message, a generic fault with the firmware-error reply, and
the unexpected-message condition passes through with nothing written. -/
theorem protobuf_workflow_error_translation_witness :
    protobuf_workflow (fun t => t) (fun _ r => r.type)
        (fun _ => .error (.wireError 3 "Forbidden key path")) ⟨1, []⟩ =
      ([Msg.failure 3 "Forbidden key path"],
       .error (.wireError 3 "Forbidden key path")) ∧
    protobuf_workflow (fun t => t) (fun _ r => r.type)
        (fun _ => .error (.other 0)) ⟨1, []⟩ =
      ([Msg.failure FailureType.FirmwareError "Firmware error"],
       .error (.other 0)) ∧
    protobuf_workflow (fun t => t) (fun _ r => r.type)
        (fun _ => .error (.unexpectedMessage ⟨9, []⟩)) ⟨1, []⟩ =
      ([], .error (.unexpectedMessage ⟨9, []⟩)) := by
  refine ⟨?_, ?_, ?_⟩
  · exact (protobuf_workflow_error_translation (fun t => t) (fun _ r => r.type)
      (fun _ => .error (.wireError 3 "Forbidden key path")) ⟨1, []⟩).1
      3 "Forbidden key path" rfl
  · exact (protobuf_workflow_error_translation (fun t => t) (fun _ r => r.type)
      (fun _ => .error (.other 0)) ⟨1, []⟩).2.1 0 rfl
  · exact (protobuf_workflow_error_translation (fun t => t) (fun _ r => r.type)
      (fun _ => .error (.unexpectedMessage ⟨9, []⟩)) ⟨1, []⟩).2.2 ⟨9, []⟩ rfl

/-- C5: `keychain_workflow` releases the keychain handle acquired at the
start of the invocation exactly once before returning, on every exit path:
whatever the inner handler does — return normally or raise any exception —
the event trace is exactly one acquisition followed by one release, and the
inner handler's outcome is passed through. -/
theorem keychain_released_exactly_once {α : Type} (k : Nat)
    (handler : Nat → Except Exc α) :
    (keychain_workflow (.ok k) handler).1 = [KEv.acquire k, KEv.release k] ∧
    (keychain_workflow (.ok k) handler).1.count (KEv.release k) = 1 ∧
    (keychain_workflow (.ok k) handler).2 = handler k := by
  refine ⟨rfl, ?_, rfl⟩
  simp [keychain_workflow, List.count_cons]

/-- C6: Registering a type tag already present in the workflow-handler table
fails with the fatal `KeyError` (producing no updated table, so the table is
unchanged), while registering a tag not yet present succeeds and never
conflicts with registrations of distinct tags: the new tag becomes findable
and every other tag's lookup is untouched. -/
theorem register_duplicate_fails {α : Type} (table : List (Nat × α))
    (mtype : MType) (entry : α) :
    ((lookup table mtype.resolve).isSome →
      register table mtype entry = .error RegErr.keyError) ∧
    (lookup table mtype.resolve = none →
      register table mtype entry = .ok (table ++ [(mtype.resolve, entry)]) ∧
      lookup (table ++ [(mtype.resolve, entry)]) mtype.resolve = some entry ∧
      ∀ t, t ≠ mtype.resolve →
        lookup (table ++ [(mtype.resolve, entry)]) t = lookup table t) := by
  constructor
  · intro h
    simp [register, h]
  · intro h
    refine ⟨by simp [register, h], ?_, ?_⟩
    · rw [lookup_append, h]
      simp
    · intro t ht
      rw [lookup_append]
      cases hl : lookup table t with
      | some w => simp
      | none => simp [if_neg (Ne.symm ht)]

/-- Witness for C6: in a table holding tag 1, re-registering tag 1 fails with
`KeyError` while registering tag 2 succeeds, makes tag 2 findable, and leaves
every other tag's lookup unchanged. -/
theorem register_duplicate_fails_witness :
    register [(1, 10)] (MType.tag 1) 20 = .error RegErr.keyError ∧
    (register [(1, 10)] (MType.tag 2) 20 = .ok [(1, 10), (2, 20)] ∧
      lookup [(1, 10), (2, 20)] 2 = some 20 ∧
      ∀ t, t ≠ (MType.tag 2).resolve →
        lookup [(1, 10), (2, 20)] t = lookup [(1, 10)] t) := by
  constructor
  · exact (register_duplicate_fails [(1, 10)] (MType.tag 1) 20).1 (by decide)
  · exact (register_duplicate_fails [(1, 10)] (MType.tag 2) 20).2 (by decide)

/-- C7: A frame whose type tag has no registration is routed by the session
handler to the generic unexpected-message workflow, whose reply is the single
`Failure(UnexpectedMessage, "Unexpected message")` message; and on any
reader, `unexpected_msg` first reads the full remaining declared payload off
the reader (discarding it, leaving the reader exhausted) before writing that
failure reply. -/
theorem unexpected_msg_drains_and_rejects (handlers : List (Nat × Behavior))
    (f : Frame) (rest : List Frame)
    (hmiss : lookup handlers f.type = none) :
    sessionIter handlers none (f :: rest) =
      .ok (some ⟨f.type,
        [Msg.failure FailureType.UnexpectedMessage "Unexpected message"],
        none, rest⟩) ∧
    (∀ r : Reader, (unexpected_msg r).1 = r.data ∧
      ((unexpected_msg r).2.1).size = 0 ∧
      (unexpected_msg r).2.2 =
        [Msg.failure FailureType.UnexpectedMessage "Unexpected message"]) := by
  constructor
  · have hsel : selectHandler handlers (Reader.ofFrame f).type =
        unexpected_msg_behavior := by
      simp [selectHandler, Reader.ofFrame, hmiss]
    rw [sessionIter_cons]
    unfold sessionDispatch
    rw [hsel]
    rfl
  · intro r
    refine ⟨?_, ?_, rfl⟩
    · simp [unexpected_msg, drainReader_eq]
    · simp [unexpected_msg, drainReader_eq, Reader.size]

/-- Witness for C7: with nothing registered, the unrecognized tag `0xFFFF`
with a three-byte payload is answered by the generic workflow's failure
reply, and `unexpected_msg` drains that payload completely. -/
theorem unexpected_msg_drains_and_rejects_witness :
    sessionIter [] none [⟨0xFFFF, [1, 2, 3]⟩] =
      .ok (some ⟨0xFFFF,
        [Msg.failure FailureType.UnexpectedMessage "Unexpected message"],
        none, []⟩) ∧
    (∀ r : Reader, (unexpected_msg r).1 = r.data ∧
      ((unexpected_msg r).2.1).size = 0 ∧
      (unexpected_msg r).2.2 =
        [Msg.failure FailureType.UnexpectedMessage "Unexpected message"]) :=
  unexpected_msg_drains_and_rejects [] ⟨0xFFFF, [1, 2, 3]⟩ [] rfl

/-- C8: In the PIN-setup flow — no stored PIN, a `ChangePin` request without
the remove flag, the user confirming — the workflow first shows the
confirmation dialog, then prompts for the new PIN twice per attempt; the
credential store is written only after two consecutive entries match (the
retry trace contains no store write, and each mismatched attempt shows the
retry screen before prompting again), and when the write succeeds the
workflow returns `Success("PIN changed")`. -/
theorem change_pin_setup_flow (check_pin : Nat → Bool)
    (config_change_pin : Nat → Nat → Bool) (pin_to_int : String → Nat)
    (curEntry : String) (entries : List (String × String)) (tr : List Ev)
    (p : String)
    (hmatch : request_pin_confirm entries = (tr, some p))
    (hp : p ≠ "")
    (hstore : config_change_pin (pin_to_int "") (pin_to_int p) = true) :
    change_pin false check_pin config_change_pin pin_to_int false true
        curEntry entries =
      (Ev.confirmDialog "set new PIN?" ::
        (tr ++ [Ev.storeChangePin (pin_to_int "") (pin_to_int p)]),
       some (.ok (Msg.success "PIN changed"))) ∧
    (∀ e ∈ tr, ∀ a b, e ≠ Ev.storeChangePin a b) ∧
    (∀ p1 p2 rest, p1 ≠ p2 →
      request_pin_confirm ((p1, p2) :: rest) =
        (Ev.promptPin (some "Enter new PIN") ::
          Ev.promptPin (some "Re-enter new PIN") ::
          Ev.pinMismatch :: (request_pin_confirm rest).1,
         (request_pin_confirm rest).2)) ∧
    (∀ p1 rest, request_pin_confirm ((p1, p1) :: rest) =
      ([Ev.promptPin (some "Enter new PIN"),
        Ev.promptPin (some "Re-enter new PIN")], some p1)) := by
  refine ⟨?_, ?_, ?_, ?_⟩
  · unfold change_pin require_confirm_change_pin
    simp [confirmResult, hmatch, hstore, hp]
  · intro e he
    have h := request_pin_confirm_no_store entries
    rw [hmatch] at h
    exact h e he
  · intro p1 p2 rest hne
    simp [request_pin_confirm, hne]
  · intro p1 rest
    simp [request_pin_confirm]

/-- Witness for C8: with no stored PIN, a first mismatched pair of entries
followed by a matching pair produces confirmation, two prompts, the mismatch
retry screen, two more prompts, exactly one store write, and the
`Success("PIN changed")` reply. -/
theorem change_pin_setup_flow_witness :
    change_pin false (fun _ => true) (fun _ _ => true) String.length false true
        "" [("12", "34"), ("56", "56")] =
      (Ev.confirmDialog "set new PIN?" ::
        ([Ev.promptPin (some "Enter new PIN"),
          Ev.promptPin (some "Re-enter new PIN"),
          Ev.pinMismatch,
          Ev.promptPin (some "Enter new PIN"),
          Ev.promptPin (some "Re-enter new PIN")] ++
         [Ev.storeChangePin (String.length "") (String.length "56")]),
       some (.ok (Msg.success "PIN changed"))) ∧
    (∀ e ∈ [Ev.promptPin (some "Enter new PIN"),
            Ev.promptPin (some "Re-enter new PIN"),
            Ev.pinMismatch,
            Ev.promptPin (some "Enter new PIN"),
            Ev.promptPin (some "Re-enter new PIN")],
      ∀ a b, e ≠ Ev.storeChangePin a b) ∧
    (∀ p1 p2 rest, p1 ≠ p2 →
      request_pin_confirm ((p1, p2) :: rest) =
        (Ev.promptPin (some "Enter new PIN") ::
          Ev.promptPin (some "Re-enter new PIN") ::
          Ev.pinMismatch :: (request_pin_confirm rest).1,
         (request_pin_confirm rest).2)) ∧
    (∀ p1 rest, request_pin_confirm ((p1, p1) :: rest) =
      ([Ev.promptPin (some "Enter new PIN"),
        Ev.promptPin (some "Re-enter new PIN")], some p1)) :=
  change_pin_setup_flow (fun _ => true) (fun _ _ => true) String.length ""
    [("12", "34"), ("56", "56")]
    [Ev.promptPin (some "Enter new PIN"), Ev.promptPin (some "Re-enter new PIN"),
     Ev.pinMismatch,
     Ev.promptPin (some "Enter new PIN"), Ev.promptPin (some "Re-enter new PIN")]
    "56" (by decide) (by decide) rfl

/-- C9: When the inner handler returns a falsy result without raising,
`protobuf_workflow` writes nothing to the wire and completes normally: the
host receives neither a response nor a failure reply. -/
theorem protobuf_workflow_falsy_writes_nothing {α : Type} (gt : Nat → Nat)
    (ld : Nat → Reader → α) (handler : α → Except Exc (Option Msg)) (r : Reader)
    (hres : handler (ld (gt r.type) r) = .ok none) :
    protobuf_workflow gt ld handler r = ([], .ok ()) := by
  unfold protobuf_workflow
  rw [hres]

/-- Witness for C9: a handler returning the falsy result leaves the write
list empty and the workflow outcome normal. -/
theorem protobuf_workflow_falsy_writes_nothing_witness :
    protobuf_workflow (fun t => t) (fun _ r => r.type)
        (fun _ => .ok none) ⟨1, []⟩ = ([], .ok ()) :=
  protobuf_workflow_falsy_writes_nothing (fun t => t) (fun _ r => r.type)
    (fun _ => .ok none) ⟨1, []⟩ rfl

/-- C10: `register` accepts an integer tag or a `MessageType` class; a class
is converted to its `MESSAGE_WIRE_TYPE` integer before insertion, so a lookup
by that integer finds the handler registered via the class, and a subsequent
registration of the same integer wire type conflicts with the class
registration. -/
theorem register_class_wire_type {α : Type} (table : List (Nat × α)) (w : Nat)
    (e1 e2 : α) (habs : lookup table w = none) :
    MType.resolve (MType.cls w) = w ∧
    (∀ n, MType.resolve (MType.tag n) = n) ∧
    register table (MType.cls w) e1 = .ok (table ++ [(w, e1)]) ∧
    lookup (table ++ [(w, e1)]) w = some e1 ∧
    register (table ++ [(w, e1)]) (MType.tag w) e2 = .error RegErr.keyError := by
  have hfind : lookup (table ++ [(w, e1)]) w = some e1 := by
    rw [lookup_append, habs]
    simp
  refine ⟨rfl, fun n => rfl, ?_, hfind, ?_⟩
  · simp [register, MType.resolve, habs]
  · simp [register, MType.resolve, hfind]

/-- Witness for C10: registering a message class with wire type 5 into the
empty table, the handler is found under the integer 5 and registering the
integer tag 5 afterwards fails with `KeyError`. -/
theorem register_class_wire_type_witness :
    MType.resolve (MType.cls 5) = 5 ∧
    (∀ n, MType.resolve (MType.tag n) = n) ∧
    register ([] : List (Nat × Nat)) (MType.cls 5) 1 = .ok [(5, 1)] ∧
    lookup [(5, 1)] 5 = some 1 ∧
    register [(5, 1)] (MType.tag 5) 2 = .error RegErr.keyError :=
  register_class_wire_type [] 5 1 2 rfl
